import Mathlib

/-!
Verification development for the AlphaSense document ingestor
(`alphasenseingestor.py`).  The Python source is shallowly embedded:
pure request construction becomes Lean functions, the network transport
and the JSON parser (external collaborators) become function parameters,
the file system becomes an explicit association list from paths to
contents, and raised exceptions become an explicit error type.  Effects
that the claims talk about (network requests issued, file handles opened
and closed) are recorded in the returned outcome structures.
-/

set_option autoImplicit false

namespace AlphaSense

/-- JSON values, modelling the Python dicts/lists/etc. produced by
`json.loads` / `response.json()` and consumed by `json.dumps`. -/
inductive JsonValue where
  | str : String → JsonValue
  | num : Int → JsonValue
  | bool : Bool → JsonValue
  | null : JsonValue
  | arr : List JsonValue → JsonValue
  | obj : List (String × JsonValue) → JsonValue
  deriving Repr

/-- Escape for one character inside a JSON string literal, as
`json.dumps` does (quote and backslash; control and non-ASCII escaping
is not modelled, the strings in this development are plain ASCII). -/
def jsonEscapeChar (c : Char) : String :=
  if c = '\\' then "\\\\"
  else if c = '"' then "\\\"" else String.singleton c

/-- Escape a whole string for embedding in JSON text. -/
def jsonEscape (s : String) : String :=
  String.join (s.toList.map jsonEscapeChar)

mutual

/-- Model of Python `json.dumps` with its default separators
`", "` and `": "`, as called at line 227 of the source. -/
def jsonDumps : JsonValue → String
  | .str s => "\"" ++ jsonEscape s ++ "\""
  | .num n => toString n
  | .bool b => if b then "true" else "false"
  | .null => "null"
  | .arr xs => "[" ++ jsonDumpsArr xs ++ "]"
  | .obj kvs => "\x7b" ++ jsonDumpsObj kvs ++ "\x7d"

/-- Comma-separated serialization of a JSON array's elements. -/
def jsonDumpsArr : List JsonValue → String
  | [] => ""
  | [x] => jsonDumps x
  | x :: y :: xs => jsonDumps x ++ ", " ++ jsonDumpsArr (y :: xs)

/-- Comma-separated serialization of a JSON object's entries. -/
def jsonDumpsObj : List (String × JsonValue) → String
  | [] => ""
  | [(k, v)] => "\"" ++ jsonEscape k ++ "\": " ++ jsonDumps v
  | (k, v) :: kv :: kvs =>
      "\"" ++ jsonEscape k ++ "\": " ++ jsonDumps v ++ ", " ++ jsonDumpsObj (kv :: kvs)

end

/-- Python exceptions that the program can raise, as an explicit error
type.  Each constructor names the Python exception class it models. -/
inductive PyError where
  /-- `FileNotFoundError`, carrying the message it was raised with. -/
  | fileNotFound : String → PyError
  /-- `KeyError`, carrying the missing key. -/
  | keyError : String → PyError
  /-- `requests.HTTPError` from `raise_for_status`, carrying the HTTP status. -/
  | httpError : Nat → PyError
  /-- a transport-level `requests.RequestException` (connection error etc.). -/
  | connectionError : String → PyError
  /-- `requests.exceptions.JSONDecodeError` from `response.json()`;
  it subclasses both `json.JSONDecodeError` and `requests.RequestException`. -/
  | requestsJSONDecodeError : PyError
  /-- plain `json.JSONDecodeError` from `json.loads` / `json.load`. -/
  | jsonDecodeError : PyError
  /-- `TypeError`, e.g. from subscripting a non-dict with a string key. -/
  | typeError : String → PyError
  deriving Repr, DecidableEq

/-- The response the `requests` transport delivers for a POST (after any
redirect handling inside the library): final status code and the JSON
parse of the body (`none` when the body is not valid JSON, in which case
`response.json()` raises). -/
structure HttpResponse where
  status : Nat
  jsonBody : Option JsonValue

/-- Result of one `requests.post` call: either a delivered response or a
transport-level failure (a `requests.RequestException`). -/
inductive HttpResult where
  | success : HttpResponse → HttpResult
  | transportError : String → HttpResult

/-- A form-encoded POST request as built by `authenticate_alphasense`
and `refresh_alphasense_token`: URL, headers, and the `data=` fields in
order. -/
structure FormRequest where
  url : String
  headers : List (String × String)
  data : List (String × String)
  deriving Repr, DecidableEq

/-- Shared handling of a `requests.post` result followed by
`response.raise_for_status()` and `return response.json()`, as in the
source.  `raise_for_status` raises `HTTPError` exactly for 4xx and 5xx
status codes; 1xx/2xx/3xx pass through, then the body is JSON-parsed. -/
def handleResponse : HttpResult → Except PyError JsonValue
  | .transportError d => .error (.connectionError d)
  | .success r =>
      if 400 ≤ r.status then .error (.httpError r.status)
      else
        match r.jsonBody with
        | some j => .ok j
        | none => .error .requestsJSONDecodeError

/-- The request `authenticate_alphasense` builds: headers
`x-api-key`/`Content-Type` and the password-grant form body, lines
107-118 of the source. -/
def authRequest (api_key username password client_id client_secret url : String) :
    FormRequest :=
  ⟨url,
   [("x-api-key", api_key), ("Content-Type", "application/x-www-form-urlencoded")],
   [("grant_type", "password"), ("username", username), ("password", password),
    ("client_id", client_id), ("client_secret", client_secret)]⟩

/-- Embedding of `authenticate_alphasense` (lines 81-123).  The network
transport is a parameter; the returned list records the requests issued
(the function posts exactly once). -/
def authenticate_alphasense (api_key username password client_id client_secret url : String)
    (respond : FormRequest → HttpResult) :
    List FormRequest × Except PyError JsonValue :=
  let req := authRequest api_key username password client_id client_secret url
  ([req], handleResponse (respond req))

/-- The request `refresh_alphasense_token` builds.  Note line 149 of the
source: the function overwrites its `url` parameter with the hardcoded
production URL before using it, so the parameter is dead. -/
def refreshRequest (api_key client_id client_secret refresh_token url : String) :
    FormRequest :=
  let url := "https://api.alpha-sense.com/auth"
  ⟨url,
   [("x-api-key", api_key), ("Content-Type", "application/x-www-form-urlencoded")],
   [("grant_type", "refresh_token"), ("client_id", client_id),
    ("client_secret", client_secret), ("refresh_token", refresh_token)]⟩

/-- Embedding of `refresh_alphasense_token` (lines 126-166). -/
def refresh_alphasense_token (api_key client_id client_secret refresh_token url : String)
    (respond : FormRequest → HttpResult) :
    List FormRequest × Except PyError JsonValue :=
  let req := refreshRequest api_key client_id client_secret refresh_token url
  ([req], handleResponse (respond req))

/-- The file system, as an association list from path to file contents.
`Path.exists()` and reading a file are interpreted against it. -/
def FS : Type := List (String × String)

/-- Model of `Path(p).exists()`. -/
def fsExists (fs : FS) (p : String) : Bool :=
  (fs.find? (fun e => e.1 == p)).isSome

/-- Contents of the file at `p` (the bytes an opened handle yields). -/
def fsRead (fs : FS) (p : String) : String :=
  match fs.find? (fun e => e.1 == p) with
  | some e => e.2
  | none => ""

/-- Suffix test on character lists: does `s` end with `post`? -/
def strEndsWith (s post : String) : Bool :=
  let sl := s.toList
  let pl := post.toList
  sl.drop (sl.length - pl.length) == pl

/-- Walk the path's characters keeping the component being read and the
last non-empty component seen before it. -/
def pathNameAux : List Char → List Char → List Char → List Char
  | [], cur, last => if cur.isEmpty then last else cur
  | c :: cs, cur, last =>
      if c = '/' then pathNameAux cs [] (if cur.isEmpty then last else cur)
      else pathNameAux cs (cur ++ [c]) last

/-- Model of `pathlib.Path(p).name`: the final non-empty component of
the slash-separated path. -/
def pathName (p : String) : String :=
  String.mk (pathNameAux p.toList [] [])

/-- Index of the last occurrence of a dot in a character list. -/
def lastDotIdx : List Char → Nat → Option Nat → Option Nat
  | [], _, acc => acc
  | c :: cs, i, acc => lastDotIdx cs (i + 1) (if c = '.' then some i else acc)

/-- Model of `pathlib.Path(p).suffix`: the final extension with its dot,
empty when the name has no dot, starts with its only dot, or ends with
a dot. -/
def pathSuffix (p : String) : String :=
  let n := (pathName p).toList
  match lastDotIdx n 0 none with
  | some i => if 0 < i ∧ i + 1 < n.length then String.mk (n.drop i) else ""
  | none => ""

/-- Model of Python `str.lower()` for the ASCII strings used here. -/
def strLower (s : String) : String :=
  String.mk (s.toList.map Char.toLower)

/-- The MIME type chosen for an attachment at line 222 of the source:
`application/pdf` when the lower-cased suffix is `.pdf`, else
`application/octet-stream`. -/
def mimeFor (p : String) : String :=
  if strLower (pathSuffix p) = ".pdf" then "application/pdf"
  else "application/octet-stream"

/-- One entry of the `files=` list passed to `requests.post`: the form
field name, the filename, the file's contents, and the explicit MIME
type when one is given (attachments carry one, the primary document
does not). -/
structure FilePart where
  field : String
  filename : String
  content : String
  mime : Option String
  deriving Repr, DecidableEq

/-- The multipart POST request built by `upload_document_to_alphasense`:
URL, headers, the `files=` parts in order, and the `data=` form
fields. -/
structure UploadHttpRequest where
  url : String
  headers : List (String × String)
  fileParts : List FilePart
  data : List (String × String)
  deriving Repr, DecidableEq

/-- What one call to `upload_document_to_alphasense` did: the paths it
opened handles for (in order), the paths whose handles it closed, the
network requests it issued, and its result or raised exception. -/
structure UploadOutcome where
  opened : List String
  closed : List String
  requests : List UploadHttpRequest
  result : Except PyError JsonValue

/-- The attachment loop at lines 215-223 of the source.  For each
attachment in order: raise `FileNotFoundError` if it does not exist
(leaving the handles already opened for earlier attachments open),
otherwise open it and record its part.  On error the returned list is
the attachments opened before the failure; on success it is all of
them, in order, paired with their parts. -/
def attachLoop (fs : FS) : List String → Except (PyError × List String) (List FilePart × List String)
  | [] => .ok ([], [])
  | p :: rest =>
    if fsExists fs p then
      match attachLoop fs rest with
      | .ok (parts, opened) =>
          .ok (⟨"attachments", pathName p, fsRead fs p, some (mimeFor p)⟩ :: parts,
               p :: opened)
      | .error (e, opened) => .error (e, p :: opened)
    else .error (.fileNotFound ("Attachment file not found: " ++ p), [])

/-- Embedding of `upload_document_to_alphasense` (lines 168-238).  The
document existence check precedes any open; the primary document is
opened before the attachments are checked; the `try`/`finally` that
closes the handles wraps only the POST and response handling, so the
`closed` list is the full `opened` list exactly when the POST phase is
reached. -/
def upload_document_to_alphasense (fs : FS) (access_token document_path : String)
    (metadata : JsonValue) (attachments : List String)
    (base_url client_id : String) (respond : UploadHttpRequest → HttpResult) :
    UploadOutcome :=
  let url := base_url ++ "/upload-document"
  let headers := [("Authorization", "bearer " ++ access_token), ("clientId", client_id)]
  if fsExists fs document_path then
    let docPart : FilePart := ⟨"file", pathName document_path, fsRead fs document_path, none⟩
    match attachLoop fs attachments with
    | .error (e, openedAtt) =>
        ⟨document_path :: openedAtt, [], [], .error e⟩
    | .ok (attParts, openedAtt) =>
        let opened := document_path :: openedAtt
        let req : UploadHttpRequest :=
          ⟨url, headers, docPart :: attParts, [("metadata", jsonDumps metadata)]⟩
        ⟨opened, opened, [req], handleResponse (respond req)⟩
  else
    ⟨[], [], [], .error (.fileNotFound ("Document file not found: " ++ document_path))⟩

/-- Model of Python `str()` as used by the f-string
`f'bearer \x7baccess_token\x7d'`; scalars print as Python prints them,
containers are approximated by their JSON serialization (no claim
exercises that case). -/
def pyStr : JsonValue → String
  | .str s => s
  | .num n => toString n
  | .bool b => if b then "True" else "False"
  | .null => "None"
  | j => jsonDumps j

/-- Model of the Python dict subscript `d[k]` on a decoded JSON value:
`KeyError` on an object without the key, `TypeError` when the value is
not a dict. -/
def jsonGetItem : JsonValue → String → Except PyError JsonValue
  | .obj kvs, k =>
      match kvs.find? (fun kv => kv.1 == k) with
      | some kv => .ok kv.2
      | none => .error (.keyError k)
  | _, _ => .error (.typeError "value is not subscriptable by a string key")

/-- Embedding of `load_metadata_from_json` (lines 57-79); the JSON
parser (`json.load`) is the `jsonParse` parameter, returning `none`
exactly when the parser would raise `json.JSONDecodeError`. -/
def load_metadata_from_json (jsonParse : String → Option JsonValue) (fs : FS)
    (metadata_path : String) : Except PyError JsonValue :=
  if fsExists fs metadata_path then
    match jsonParse (fsRead fs metadata_path) with
    | some j => .ok j
    | none => .error .jsonDecodeError
  else .error (.fileNotFound ("Metadata file not found: " ++ metadata_path))

/-- The fixed default metadata object substituted at lines 283-286 when
no metadata argument is given. -/
def defaultMetadata : JsonValue :=
  .obj [("title", .str "Sample Document"),
        ("docAuthors", .arr [.obj [("authorName", .str "Test Author"),
                                   ("operation", .str "ADD")]])]

/-- The metadata-resolution step of `cli` (lines 274-286): a truthy
argument ending in `.json` is loaded as a file, any other truthy
argument is parsed as inline JSON, and a missing or empty argument
yields the fixed default object. -/
def resolveMetadata (jsonParse : String → Option JsonValue) (fs : FS) :
    Option String → Except PyError JsonValue
  | some m =>
      if m = "" then .ok defaultMetadata
      else if strEndsWith m ".json" then load_metadata_from_json jsonParse fs m
      else
        match jsonParse m with
        | some j => .ok j
        | none => .error .jsonDecodeError
  | none => .ok defaultMetadata

/-- The seven required configuration fields (§3 of the spec), as
`load_config` returns them. -/
structure ASConfig where
  api_key : String
  username : String
  password : String
  client_id : String
  client_secret : String
  auth_url : String
  ingestion_base_url : String

/-- The environment the `cli` run interacts with: the outcome of
`load_config` (TOML parsing is an external collaborator), the file
system, the external JSON parser, and the two network transports. -/
structure CliEnv where
  loadConfigResult : Except PyError ASConfig
  fs : FS
  jsonParse : String → Option JsonValue
  authRespond : FormRequest → HttpResult
  uploadRespond : UploadHttpRequest → HttpResult

/-- How a `cli` run terminates after the `try`/`except` chain at lines
297-302: clean success, an exception caught by one of the three
`except` clauses (logged with the given prefix, then a normal exit), or
an uncaught exception terminating the run abnormally. -/
inductive CliExit where
  | success : CliExit
  | caught : String → PyError → CliExit
  | abnormal : PyError → CliExit
  deriving Repr, DecidableEq

/-- Membership in `except (FileNotFoundError, KeyError)` (line 297). -/
def isFileNotFoundOrKeyError : PyError → Bool
  | .fileNotFound _ => true
  | .keyError _ => true
  | _ => false

/-- Membership in `except requests.RequestException` (line 299);
`requests`' JSON decode error subclasses `RequestException`. -/
def isRequestException : PyError → Bool
  | .httpError _ => true
  | .connectionError _ => true
  | .requestsJSONDecodeError => true
  | _ => false

/-- Membership in `except json.JSONDecodeError` (line 301). -/
def isJSONDecodeError : PyError → Bool
  | .requestsJSONDecodeError => true
  | .jsonDecodeError => true
  | _ => false

/-- The `except` chain of `cli`: the first matching clause catches and
logs (run ends normally); anything else propagates uncaught. -/
def cliCatch : Option PyError → CliExit
  | none => .success
  | some e =>
      if isFileNotFoundOrKeyError e then .caught "Configuration error" e
      else if isRequestException e then .caught "Authentication failed" e
      else if isJSONDecodeError e then .caught "Invalid JSON metadata" e
      else .abnormal e

/-- What a `cli` run did: whether `upload_document_to_alphasense` was
invoked, its outcome when it was, and how the run terminated. -/
structure CliRun where
  uploadCalled : Bool
  uploadOutcome : Option UploadOutcome
  exit : CliExit

/-- The body of the `try` block of `cli` (lines 258-295): load config,
authenticate, extract `access_token` by dict subscript, resolve
metadata, upload.  Returns whether upload was called, its outcome, and
the exception escaping the block, if any. -/
def cliTry (env : CliEnv) (document : String) (attachments : List String)
    (metadataArg : Option String) : Bool × Option UploadOutcome × Option PyError :=
  match env.loadConfigResult with
  | .error e => (false, none, some e)
  | .ok cfg =>
    match (authenticate_alphasense cfg.api_key cfg.username cfg.password
             cfg.client_id cfg.client_secret cfg.auth_url env.authRespond).2 with
    | .error e => (false, none, some e)
    | .ok authResponse =>
      match jsonGetItem authResponse "access_token" with
      | .error e => (false, none, some e)
      | .ok tok =>
        match resolveMetadata env.jsonParse env.fs metadataArg with
        | .error e => (false, none, some e)
        | .ok md =>
          let o := upload_document_to_alphasense env.fs (pyStr tok) document md
                     attachments cfg.ingestion_base_url "enterprise-sync" env.uploadRespond
          (true, some o,
           match o.result with
           | .error e => some e
           | .ok _ => none)

/-- Embedding of the `cli` entry point (lines 247-302): the `try` body
followed by the `except` chain. -/
def cli (env : CliEnv) (document : String) (attachments : List String)
    (metadataArg : Option String) : CliRun :=
  let t := cliTry env document attachments metadataArg
  ⟨t.1, t.2.1, cliCatch t.2.2⟩

/-! ### Supporting lemmas about the attachment loop -/

/-- When every attachment exists, the loop succeeds, opening every
attachment in order and producing one `attachments` part per file with
the extension-derived MIME type. -/
theorem attachLoop_allExist (fs : FS) :
    ∀ attachments : List String, (∀ p ∈ attachments, fsExists fs p = true) →
      attachLoop fs attachments
        = .ok (attachments.map
            (fun p => ⟨"attachments", pathName p, fsRead fs p, some (mimeFor p)⟩),
            attachments)
  | [], _ => rfl
  | q :: rest, h => by
      have hq : fsExists fs q = true := h q (by simp)
      have ih := attachLoop_allExist fs rest (fun p hp => h p (by simp [hp]))
      simp [attachLoop, hq, ih]

/-- When the attachments before `a` all exist and `a` does not, the
loop raises `FileNotFoundError` naming `a`, with exactly the earlier
attachments opened (and left open by the loop). -/
theorem attachLoop_firstMissing (fs : FS) (a : String) (post : List String)
    (ha : fsExists fs a = false) :
    ∀ pre : List String, (∀ p ∈ pre, fsExists fs p = true) →
      attachLoop fs (pre ++ a :: post)
        = .error (.fileNotFound ("Attachment file not found: " ++ a), pre)
  | [], _ => by simp [attachLoop, ha]
  | q :: pre, h => by
      have hq : fsExists fs q = true := h q (by simp)
      have ih := attachLoop_firstMissing fs a post ha pre (fun p hp => h p (by simp [hp]))
      simp [attachLoop, hq, ih]

/-! ### Claim theorems -/

/-- C1: the claim that every file handle opened for a multipart part is
closed on every exit path is violated by the code.  In this run the
primary document exists and is opened, the single attachment does not
exist, and the resulting `FileNotFoundError` is raised before the
`try`/`finally` block, so the run ends with the document's handle
opened but never closed and no network request issued. -/
theorem C1_missing_attachment_leaks_open_handle :
    upload_document_to_alphasense [("doc.txt", "DOC")] "tok" "doc.txt" (JsonValue.obj [])
        ["missing.pdf"] "https://base" "enterprise-sync"
        (fun _ => HttpResult.transportError "unused")
      = ⟨["doc.txt"], [], [],
         .error (.fileNotFound "Attachment file not found: missing.pdf")⟩ := rfl

/-- C3: the claim that `refresh_alphasense_token` sends its request to
the given `url` is violated: line 149 overwrites the parameter with the
hardcoded production URL, so for the input URL
`https://auth.example.com/token` the single request goes to
`https://api.alpha-sense.com/auth` instead, while the header and body
contract does match the claim. -/
theorem C3_refresh_ignores_url_argument :
    (refresh_alphasense_token "k" "cid" "sec" "rt" "https://auth.example.com/token"
        (fun _ => HttpResult.transportError "unused")).1
      = [⟨"https://api.alpha-sense.com/auth",
          [("x-api-key", "k"), ("Content-Type", "application/x-www-form-urlencoded")],
          [("grant_type", "refresh_token"), ("client_id", "cid"),
           ("client_secret", "sec"), ("refresh_token", "rt")]⟩]
    ∧ "https://api.alpha-sense.com/auth" ≠ "https://auth.example.com/token" :=
  ⟨rfl, by decide⟩

/-- C4: when the primary document does not exist, upload raises
`FileNotFoundError` naming it and issues zero network requests; when
the document exists but some attachment does not, the first missing
attachment aborts the whole call with a `FileNotFoundError` naming it,
again with zero network requests. -/
theorem C4_missing_files_abort_before_network
    (fs : FS) (access_token document_path : String) (metadata : JsonValue)
    (attachments : List String) (base_url client_id : String)
    (respond : UploadHttpRequest → HttpResult) :
    (fsExists fs document_path = false →
      (upload_document_to_alphasense fs access_token document_path metadata
          attachments base_url client_id respond).result
        = .error (.fileNotFound ("Document file not found: " ++ document_path))
      ∧ (upload_document_to_alphasense fs access_token document_path metadata
          attachments base_url client_id respond).requests = [])
    ∧ (∀ pre a post, attachments = pre ++ a :: post →
        (∀ p ∈ pre, fsExists fs p = true) → fsExists fs a = false →
        fsExists fs document_path = true →
        (upload_document_to_alphasense fs access_token document_path metadata
            attachments base_url client_id respond).result
          = .error (.fileNotFound ("Attachment file not found: " ++ a))
        ∧ (upload_document_to_alphasense fs access_token document_path metadata
            attachments base_url client_id respond).requests = []) := by
  constructor
  · intro hdoc
    simp [upload_document_to_alphasense, hdoc]
  · intro pre a post hatt hpre ha hdoc
    subst hatt
    have hloop := attachLoop_firstMissing fs a post ha pre hpre
    simp [upload_document_to_alphasense, hdoc, hloop]

/-- Witness for C4: a concrete file system where both conclusions fire,
once for a missing primary document and once for a missing second
attachment after an existing first one. -/
theorem C4_missing_files_abort_before_network_witness :
    ((upload_document_to_alphasense [("doc.txt", "D"), ("a1.pdf", "A")] "tok" "gone.txt"
        (JsonValue.obj []) ["a1.pdf"] "https://base" "enterprise-sync"
        (fun _ => HttpResult.transportError "unused")).result
      = .error (.fileNotFound "Document file not found: gone.txt")
    ∧ (upload_document_to_alphasense [("doc.txt", "D"), ("a1.pdf", "A")] "tok" "gone.txt"
        (JsonValue.obj []) ["a1.pdf"] "https://base" "enterprise-sync"
        (fun _ => HttpResult.transportError "unused")).requests = [])
    ∧ ((upload_document_to_alphasense [("doc.txt", "D"), ("a1.pdf", "A")] "tok" "doc.txt"
        (JsonValue.obj []) ["a1.pdf", "gone.pdf"] "https://base" "enterprise-sync"
        (fun _ => HttpResult.transportError "unused")).result
      = .error (.fileNotFound "Attachment file not found: gone.pdf")
    ∧ (upload_document_to_alphasense [("doc.txt", "D"), ("a1.pdf", "A")] "tok" "doc.txt"
        (JsonValue.obj []) ["a1.pdf", "gone.pdf"] "https://base" "enterprise-sync"
        (fun _ => HttpResult.transportError "unused")).requests = []) := by
  constructor
  · exact (C4_missing_files_abort_before_network [("doc.txt", "D"), ("a1.pdf", "A")]
      "tok" "gone.txt" (JsonValue.obj []) ["a1.pdf"] "https://base" "enterprise-sync"
      (fun _ => HttpResult.transportError "unused")).1 (by decide)
  · exact (C4_missing_files_abort_before_network [("doc.txt", "D"), ("a1.pdf", "A")]
      "tok" "doc.txt" (JsonValue.obj []) ["a1.pdf", "gone.pdf"] "https://base"
      "enterprise-sync" (fun _ => HttpResult.transportError "unused")).2
      ["a1.pdf"] "gone.pdf" [] rfl (by decide) (by decide) (by decide)

/-- C6: with every file present, upload issues exactly one request, to
`base_url ++ "/upload-document"`, with the `Authorization`/`clientId`
headers, one `file` part carrying the primary document's name and
bytes, one `attachments` part per attachment carrying its name, bytes
and extension-derived MIME type, and a `metadata` form field holding
the JSON serialization of the metadata. -/
theorem C6_upload_request_shape
    (fs : FS) (access_token document_path : String) (metadata : JsonValue)
    (attachments : List String) (base_url client_id : String)
    (respond : UploadHttpRequest → HttpResult)
    (hdoc : fsExists fs document_path = true)
    (hatt : ∀ p ∈ attachments, fsExists fs p = true) :
    (upload_document_to_alphasense fs access_token document_path metadata
        attachments base_url client_id respond).requests
      = [⟨base_url ++ "/upload-document",
          [("Authorization", "bearer " ++ access_token), ("clientId", client_id)],
          ⟨"file", pathName document_path, fsRead fs document_path, none⟩
            :: attachments.map
                 (fun p => ⟨"attachments", pathName p, fsRead fs p, some (mimeFor p)⟩),
          [("metadata", jsonDumps metadata)]⟩] := by
  have hloop := attachLoop_allExist fs attachments hatt
  simp [upload_document_to_alphasense, hdoc, hloop]

/-- Witness for C6: one existing document and one existing `.PDF`
attachment produce the documented single request, with the attachment
part typed `application/pdf` by its (case-folded) extension. -/
theorem C6_upload_request_shape_witness :
    (upload_document_to_alphasense [("d/report.txt", "BODY"), ("d/extra.PDF", "ATT")]
        "tok" "d/report.txt" (JsonValue.obj [("title", JsonValue.str "T")])
        ["d/extra.PDF"] "https://ingest" "enterprise-sync"
        (fun _ => HttpResult.success ⟨200, some (JsonValue.obj [])⟩)).requests
      = [⟨"https://ingest/upload-document",
          [("Authorization", "bearer tok"), ("clientId", "enterprise-sync")],
          [⟨"file", "report.txt", "BODY", none⟩,
           ⟨"attachments", "extra.PDF", "ATT", some "application/pdf"⟩],
          [("metadata", "\x7b\"title\": \"T\"\x7d")]⟩] := by
  have h := C6_upload_request_shape [("d/report.txt", "BODY"), ("d/extra.PDF", "ATT")]
    "tok" "d/report.txt" (JsonValue.obj [("title", JsonValue.str "T")])
    ["d/extra.PDF"] "https://ingest" "enterprise-sync"
    (fun _ => HttpResult.success ⟨200, some (JsonValue.obj [])⟩)
    (by decide) (by decide)
  rw [h]
  rfl

/-- C5 counterexample: `raise_for_status` raises only for 4xx/5xx, so a
delivered status-300 response — which is not 2xx — does not make
`authenticate_alphasense` fail: it returns the parsed body instead of
an `AuthenticationError`. -/
theorem C5_counterexample_status_300_succeeds :
    (authenticate_alphasense "k" "u" "p" "cid" "sec" "https://auth"
        (fun _ => HttpResult.success
          ⟨300, some (JsonValue.obj [("access_token", JsonValue.str "T")])⟩)).2
      = .ok (JsonValue.obj [("access_token", JsonValue.str "T")])
    ∧ ¬ (200 ≤ 300 ∧ 300 ≤ 299) :=
  ⟨rfl, by decide⟩

/-- C5 (amended): `authenticate_alphasense` sends exactly one
form-encoded POST with the `x-api-key` header and the password-grant
body; on a 2xx response whose JSON body carries `access_token` (the
endpoint contract) it returns that parsed body; on any 4xx/5xx status
it fails with an `HTTPError` carrying the status, and on transport
failure with the transport error's detail — both of which the
Orchestrator treats as its authentication failure kind. -/
theorem C5_authenticate_contract
    (api_key username password client_id client_secret url : String)
    (respond : FormRequest → HttpResult) :
    (authenticate_alphasense api_key username password client_id client_secret url
        respond).1
      = [⟨url,
          [("x-api-key", api_key), ("Content-Type", "application/x-www-form-urlencoded")],
          [("grant_type", "password"), ("username", username), ("password", password),
           ("client_id", client_id), ("client_secret", client_secret)]⟩]
    ∧ (∀ r j v,
        respond (authRequest api_key username password client_id client_secret url)
          = .success r →
        200 ≤ r.status → r.status ≤ 299 → r.jsonBody = some j →
        jsonGetItem j "access_token" = .ok v →
        (authenticate_alphasense api_key username password client_id client_secret url
            respond).2 = .ok j)
    ∧ (∀ r,
        respond (authRequest api_key username password client_id client_secret url)
          = .success r →
        400 ≤ r.status →
        (authenticate_alphasense api_key username password client_id client_secret url
            respond).2 = .error (.httpError r.status))
    ∧ (∀ d,
        respond (authRequest api_key username password client_id client_secret url)
          = .transportError d →
        (authenticate_alphasense api_key username password client_id client_secret url
            respond).2 = .error (.connectionError d)) := by
  refine ⟨rfl, ?_, ?_, ?_⟩
  · intro r j v hresp h2a h2b hbody _
    have h400 : ¬ 400 ≤ r.status := by omega
    simp [authenticate_alphasense, handleResponse, hresp, h400, hbody]
  · intro r hresp h400
    simp [authenticate_alphasense, handleResponse, hresp, h400]
  · intro d hresp
    simp [authenticate_alphasense, handleResponse, hresp]

/-- Witness for C5: concrete transports exercising the 2xx, the 401 and
the transport-failure conclusions of the contract. -/
theorem C5_authenticate_contract_witness :
    (authenticate_alphasense "k" "u" "p" "cid" "sec" "https://auth"
        (fun _ => HttpResult.success
          ⟨200, some (JsonValue.obj [("access_token", JsonValue.str "T")])⟩)).2
      = .ok (JsonValue.obj [("access_token", JsonValue.str "T")])
    ∧ (authenticate_alphasense "k" "u" "p" "cid" "sec" "https://auth"
        (fun _ => HttpResult.success ⟨401, none⟩)).2 = .error (.httpError 401)
    ∧ (authenticate_alphasense "k" "u" "p" "cid" "sec" "https://auth"
        (fun _ => HttpResult.transportError "connection refused")).2
      = .error (.connectionError "connection refused") := by
  refine ⟨?_, ?_, ?_⟩
  · exact (C5_authenticate_contract "k" "u" "p" "cid" "sec" "https://auth"
      (fun _ => HttpResult.success
        ⟨200, some (JsonValue.obj [("access_token", JsonValue.str "T")])⟩)).2.1
      ⟨200, some (JsonValue.obj [("access_token", JsonValue.str "T")])⟩
      (JsonValue.obj [("access_token", JsonValue.str "T")]) (JsonValue.str "T")
      rfl (by decide) (by decide) rfl rfl
  · exact (C5_authenticate_contract "k" "u" "p" "cid" "sec" "https://auth"
      (fun _ => HttpResult.success ⟨401, none⟩)).2.2.1 ⟨401, none⟩ rfl (by decide)
  · exact (C5_authenticate_contract "k" "u" "p" "cid" "sec" "https://auth"
      (fun _ => HttpResult.transportError "connection refused")).2.2.2
      "connection refused" rfl

/-- C2 counterexample: with a 2xx authentication response whose body
lacks `access_token`, the resulting `KeyError` is caught by the
`except (FileNotFoundError, KeyError)` clause and logged as a
configuration error; the run ends normally (a `caught` exit, not an
`abnormal` one), contradicting the claim that it propagates uncaught. -/
theorem C2_counterexample_keyerror_is_caught :
    cli ⟨.ok ⟨"k", "u", "p", "cid", "sec", "https://auth", "https://ingest"⟩,
         [], fun _ => none,
         fun _ => HttpResult.success
           ⟨200, some (JsonValue.obj [("token_type", JsonValue.str "bearer")])⟩,
         fun _ => HttpResult.transportError "unused"⟩
        "doc.txt" [] none
      = ⟨false, none, .caught "Configuration error" (.keyError "access_token")⟩ := rfl

/-- C2 (amended): when the authentication endpoint returns 2xx with a
JSON object lacking `access_token`, the `KeyError` raised by the dict
subscript IS caught at the Orchestrator boundary — by the
`(FileNotFoundError, KeyError)` clause, logged as a configuration
error — so the run terminates normally and upload is never attempted. -/
theorem C2_missing_access_token_is_caught
    (env : CliEnv) (cfg : ASConfig) (document : String) (attachments : List String)
    (metadataArg : Option String) (r : HttpResponse)
    (kvs : List (String × JsonValue))
    (hcfg : env.loadConfigResult = .ok cfg)
    (hresp : env.authRespond (authRequest cfg.api_key cfg.username cfg.password
               cfg.client_id cfg.client_secret cfg.auth_url) = .success r)
    (h2a : 200 ≤ r.status) (h2b : r.status ≤ 299)
    (hbody : r.jsonBody = some (JsonValue.obj kvs))
    (hmiss : kvs.find? (fun kv => kv.1 == "access_token") = none) :
    cli env document attachments metadataArg
      = ⟨false, none, .caught "Configuration error" (.keyError "access_token")⟩ := by
  have h400 : ¬ 400 ≤ r.status := by omega
  simp [cli, cliTry, authenticate_alphasense, hcfg, handleResponse, hresp, h400,
    hbody, jsonGetItem, hmiss, cliCatch, isFileNotFoundOrKeyError]

/-- Witness for C2 (amended): a concrete environment whose auth
endpoint answers 200 with a tokenless body. -/
theorem C2_missing_access_token_is_caught_witness :
    cli ⟨.ok ⟨"k2", "u2", "p2", "cid2", "sec2", "https://auth2", "https://ingest2"⟩,
         [("d2.txt", "X")], fun _ => none,
         fun _ => HttpResult.success ⟨204, some (JsonValue.obj [])⟩,
         fun _ => HttpResult.transportError "unused"⟩
        "d2.txt" [] none
      = ⟨false, none, .caught "Configuration error" (.keyError "access_token")⟩ :=
  C2_missing_access_token_is_caught
    ⟨.ok ⟨"k2", "u2", "p2", "cid2", "sec2", "https://auth2", "https://ingest2"⟩,
     [("d2.txt", "X")], fun _ => none,
     fun _ => HttpResult.success ⟨204, some (JsonValue.obj [])⟩,
     fun _ => HttpResult.transportError "unused"⟩
    ⟨"k2", "u2", "p2", "cid2", "sec2", "https://auth2", "https://ingest2"⟩
    "d2.txt" [] none ⟨204, some (JsonValue.obj [])⟩ []
    rfl rfl (by decide) (by decide) rfl rfl

/-- C9 counterexample: a delivered status-300 authentication response
is not 2xx, yet `raise_for_status` does not raise for it, so the run
does not reach `Failed(AuthenticationError)`: the upload IS attempted
and the run finishes cleanly. -/
theorem C9_counterexample_status_300_proceeds_to_upload :
    (cli ⟨.ok ⟨"k", "u", "p", "cid", "sec", "https://auth", "https://ingest"⟩,
          [("d.txt", "X")], fun _ => none,
          fun _ => HttpResult.success
            ⟨300, some (JsonValue.obj [("access_token", JsonValue.str "T")])⟩,
          fun _ => HttpResult.success ⟨200, some (JsonValue.obj [])⟩⟩
        "d.txt" [] none).uploadCalled = true
    ∧ (cli ⟨.ok ⟨"k", "u", "p", "cid", "sec", "https://auth", "https://ingest"⟩,
          [("d.txt", "X")], fun _ => none,
          fun _ => HttpResult.success
            ⟨300, some (JsonValue.obj [("access_token", JsonValue.str "T")])⟩,
          fun _ => HttpResult.success ⟨200, some (JsonValue.obj [])⟩⟩
        "d.txt" [] none).exit = .success :=
  ⟨rfl, rfl⟩

/-- C9 (amended): whenever the authentication endpoint returns a 4xx or
5xx status (e.g. 401), the `HTTPError` is caught at the top level by
the `requests.RequestException` clause and logged as an authentication
failure, the upload is never attempted, and the run terminates
normally. -/
theorem C9_auth_error_status_reaches_failed_auth
    (env : CliEnv) (cfg : ASConfig) (document : String) (attachments : List String)
    (metadataArg : Option String) (r : HttpResponse)
    (hcfg : env.loadConfigResult = .ok cfg)
    (hresp : env.authRespond (authRequest cfg.api_key cfg.username cfg.password
               cfg.client_id cfg.client_secret cfg.auth_url) = .success r)
    (h400 : 400 ≤ r.status) :
    cli env document attachments metadataArg
      = ⟨false, none, .caught "Authentication failed" (.httpError r.status)⟩ := by
  simp [cli, cliTry, authenticate_alphasense, hcfg, handleResponse, hresp, h400,
    cliCatch, isFileNotFoundOrKeyError, isRequestException]

/-- Witness for C9 (amended): a concrete environment whose auth
endpoint answers 401. -/
theorem C9_auth_error_status_reaches_failed_auth_witness :
    cli ⟨.ok ⟨"k", "u", "p", "cid", "sec", "https://auth", "https://ingest"⟩,
         [("d.txt", "X")], fun _ => none,
         fun _ => HttpResult.success ⟨401, none⟩,
         fun _ => HttpResult.transportError "unused"⟩
        "d.txt" [] none
      = ⟨false, none, .caught "Authentication failed" (.httpError 401)⟩ :=
  C9_auth_error_status_reaches_failed_auth
    ⟨.ok ⟨"k", "u", "p", "cid", "sec", "https://auth", "https://ingest"⟩,
     [("d.txt", "X")], fun _ => none,
     fun _ => HttpResult.success ⟨401, none⟩,
     fun _ => HttpResult.transportError "unused"⟩
    ⟨"k", "u", "p", "cid", "sec", "https://auth", "https://ingest"⟩
    "d.txt" [] none ⟨401, none⟩ rfl rfl (by decide)

/-- C7: a JSON text given inline and the same text given as the
contents of a `.json` metadata file resolve through the same JSON
parser to the same value (or fail identically), so the two paths make
`upload_document_to_alphasense` build the very same request — in
particular an identical serialized `metadata` part. -/
theorem C7_metadata_inline_file_roundtrip
    (jsonParse : String → Option JsonValue) (fsInline fsFile fsUp : FS)
    (s mpath : String) (access_token document_path : String)
    (attachments : List String) (base_url client_id : String)
    (respond : UploadHttpRequest → HttpResult)
    (hs : s ≠ "") (hsj : strEndsWith s ".json" = false)
    (hp : mpath ≠ "") (hpj : strEndsWith mpath ".json" = true)
    (hex : fsExists fsFile mpath = true) (hread : fsRead fsFile mpath = s) :
    resolveMetadata jsonParse fsFile (some mpath)
      = resolveMetadata jsonParse fsInline (some s)
    ∧ ∀ j j2, resolveMetadata jsonParse fsFile (some mpath) = .ok j →
        resolveMetadata jsonParse fsInline (some s) = .ok j2 →
        upload_document_to_alphasense fsUp access_token document_path j
            attachments base_url client_id respond
          = upload_document_to_alphasense fsUp access_token document_path j2
              attachments base_url client_id respond := by
  have heq : resolveMetadata jsonParse fsFile (some mpath)
      = resolveMetadata jsonParse fsInline (some s) := by
    simp [resolveMetadata, load_metadata_from_json, hs, hsj, hp, hpj, hex, hread]
  refine ⟨heq, ?_⟩
  intro j j2 h1 h2
  rw [heq, h2] at h1
  cases h1
  rfl

/-- Witness for C7: the text `meta` inline versus a file `m.json`
containing `meta`, under a parser that maps `meta` to a one-field
object; both resolve to that object and induce the same upload call. -/
theorem C7_metadata_inline_file_roundtrip_witness :
    resolveMetadata
        (fun t => if t = "meta" then some (JsonValue.obj [("k", JsonValue.str "v")]) else none)
        [("m.json", "meta")] (some "m.json")
      = resolveMetadata
          (fun t => if t = "meta" then some (JsonValue.obj [("k", JsonValue.str "v")]) else none)
          [] (some "meta")
    ∧ upload_document_to_alphasense [("d.txt", "X")] "tok" "d.txt"
          (JsonValue.obj [("k", JsonValue.str "v")]) [] "https://ingest" "enterprise-sync"
          (fun _ => HttpResult.transportError "unused")
        = upload_document_to_alphasense [("d.txt", "X")] "tok" "d.txt"
            (JsonValue.obj [("k", JsonValue.str "v")]) [] "https://ingest" "enterprise-sync"
            (fun _ => HttpResult.transportError "unused") := by
  have h := C7_metadata_inline_file_roundtrip
    (fun t => if t = "meta" then some (JsonValue.obj [("k", JsonValue.str "v")]) else none)
    [] [("m.json", "meta")] [("d.txt", "X")] "meta" "m.json" "tok" "d.txt" []
    "https://ingest" "enterprise-sync" (fun _ => HttpResult.transportError "unused")
    (by decide) (by decide) (by decide) (by decide) rfl rfl
  exact ⟨h.1, h.2 (JsonValue.obj [("k", JsonValue.str "v")])
    (JsonValue.obj [("k", JsonValue.str "v")]) rfl rfl⟩

/-- C8: whatever the parser and the file system, omitting the metadata
argument substitutes exactly the fixed default object, and any two runs
resolve an omitted argument to the same value. -/
theorem C8_default_metadata_fixed
    (jsonParse jsonParse2 : String → Option JsonValue) (fs fs2 : FS) :
    resolveMetadata jsonParse fs none
      = .ok (JsonValue.obj
          [("title", JsonValue.str "Sample Document"),
           ("docAuthors", JsonValue.arr
             [JsonValue.obj [("authorName", JsonValue.str "Test Author"),
                             ("operation", JsonValue.str "ADD")]])])
    ∧ resolveMetadata jsonParse fs none = resolveMetadata jsonParse2 fs2 none :=
  ⟨rfl, rfl⟩

/-- C10: a truthy metadata argument takes the file-loading path exactly
when it ends in `.json`; any non-empty argument without that suffix is
parsed as inline JSON — yielding the malformed-JSON failure when the
parser rejects it — and the file system is never consulted for it. -/
theorem C10_metadata_path_iff_json_suffix
    (jsonParse : String → Option JsonValue) (fs fs2 : FS) (s : String)
    (hs : s ≠ "") :
    (strEndsWith s ".json" = true →
      resolveMetadata jsonParse fs (some s) = load_metadata_from_json jsonParse fs s)
    ∧ (strEndsWith s ".json" = false →
        (resolveMetadata jsonParse fs (some s)
          = match jsonParse s with
            | some j => .ok j
            | none => .error .jsonDecodeError)
        ∧ resolveMetadata jsonParse fs (some s) = resolveMetadata jsonParse fs2 (some s)) := by
  constructor
  · intro hj
    simp [resolveMetadata, hs, hj]
  · intro hj
    constructor
    · simp [resolveMetadata, hs, hj]
    · simp [resolveMetadata, hs, hj]

/-- Witness for C10: the argument `m.json` is loaded as a file, while
the argument `meta.txt` — a path to a file that exists in the file
system with non-JSON contents — is parsed as inline text instead, and
fails as malformed JSON even though the file is present. -/
theorem C10_metadata_path_iff_json_suffix_witness :
    resolveMetadata (fun _ => none) [("meta.txt", "stuff")] (some "m.json")
      = load_metadata_from_json (fun _ => none) [("meta.txt", "stuff")] "m.json"
    ∧ resolveMetadata (fun _ => none) [("meta.txt", "stuff")] (some "meta.txt")
      = .error .jsonDecodeError
    ∧ resolveMetadata (fun _ => none) [("meta.txt", "stuff")] (some "meta.txt")
      = resolveMetadata (fun _ => none) [] (some "meta.txt") := by
  have h1 := (C10_metadata_path_iff_json_suffix (fun _ => none)
    [("meta.txt", "stuff")] [] "m.json" (by decide)).1 (by decide)
  have h2 := (C10_metadata_path_iff_json_suffix (fun _ => none)
    [("meta.txt", "stuff")] [] "meta.txt" (by decide)).2 (by decide)
  exact ⟨h1, h2.1, h2.2⟩

end AlphaSense
